import Mathlib

/-!
# Verification of the mynt headless-browser harness specification

Shallow embedding of the three verification scripts under `verification/`
(`verify_window_center.py`, `verify_activity.py`, `verify_context_menu.py`)
and proofs about the properties the specification states about them.

The embedding covers:
* the window-centering geometry check (`verify_window_center.py`, lines 38-56),
* the printed verdict logic of that check, including the guard on a missing
  bounding box or viewport (`if box and viewport:`),
* the context-menu region probes and the per-probe printed records
  (`verify_context_menu.py`, lines 26-91),
* the session-seeding order of each scenario (init script versus
  post-navigation `evaluate`),
* the probe/cleanup interaction trace of the context-menu scenario, and
* the try/except/finally control flow of every scenario: which steps run
  before the `try`, which errors reach the error screenshot, and on which
  paths `browser.close()` runs.
-/

namespace Mynt

/-! ## Geometry: the window-centering check (`verify_window_center.py`) -/

/-- A rendered element's bounding box as returned by the browser driver
(`element.bounding_box()` in `verify_window_center.py`, line 39):
top-left position and size in viewport pixels. -/
structure BoundingBox where
  x : ℚ
  y : ℚ
  width : ℚ
  height : ℚ
deriving DecidableEq

/-- The viewport dimensions returned by `page.viewport_size`
(`verify_window_center.py`, line 40). -/
structure ViewportSize where
  width : ℚ
  height : ℚ
deriving DecidableEq

/-- Python's built-in `abs`, as used on the coordinate differences in
`verify_window_center.py`, line 53. -/
def absQ (q : ℚ) : ℚ := if q < 0 then -q else q

/-- `expected_x = (viewport['width'] - 800) / 2` (`verify_window_center.py`, line 47;
the Settings window has hardcoded width 800). -/
def expected_x (v : ViewportSize) : ℚ := (v.width - 800) / 2

/-- `expected_y = (viewport['height'] - 600) / 2` (`verify_window_center.py`, line 48;
the window has hardcoded height 600). -/
def expected_y (v : ViewportSize) : ℚ := (v.height - 600) / 2

/-- The centering condition of `verify_window_center.py`, line 53:
`abs(box['x'] - expected_x) < 5 and abs(box['y'] - expected_y) < 5`. -/
def centeredCheck (box : BoundingBox) (v : ViewportSize) : Bool :=
  decide (absQ (box.x - expected_x v) < 5) && decide (absQ (box.y - expected_y v) < 5)

/-- The spec's `ExpectedGeometry` record (spec section 3): viewport and window
dimensions plus the tolerance. The source instantiates it with window 800 by 600
and tolerance 5; the tolerance-parametric form is the spec's named primitive
`boundingBoxWithin`. -/
structure ExpectedGeometry where
  viewportWidth : ℚ
  viewportHeight : ℚ
  windowWidth : ℚ
  windowHeight : ℚ
  tolerancePx : ℚ
deriving DecidableEq

/-- The derived expected x position of spec section 3:
`expectedX = (viewportWidth - windowWidth) / 2`. -/
def expectedXGen (g : ExpectedGeometry) : ℚ := (g.viewportWidth - g.windowWidth) / 2

/-- The derived expected y position of spec section 3. -/
def expectedYGen (g : ExpectedGeometry) : ℚ := (g.viewportHeight - g.windowHeight) / 2

/-- The spec's `boundingBoxWithin` assertion primitive: the comparison of
`verify_window_center.py`, line 53, with the tolerance abstracted as in spec
sections 3 and 4.3 (the source hardcodes tolerance 5). -/
def boundingBoxWithin (a : BoundingBox) (g : ExpectedGeometry) : Bool :=
  decide (absQ (a.x - expectedXGen g) < g.tolerancePx) &&
    decide (absQ (a.y - expectedYGen g) < g.tolerancePx)

/-- Replace the tolerance of an `ExpectedGeometry`, keeping the dimensions. -/
def withTolerance (g : ExpectedGeometry) (t : ℚ) : ExpectedGeometry :=
  ⟨g.viewportWidth, g.viewportHeight, g.windowWidth, g.windowHeight, t⟩

/-- The printed verdict of the window-centering check. -/
inductive Verdict where
  | success
  | failure
  | noVerdict
deriving DecidableEq

/-- The verdict logic of `verify_window_center.py`, lines 42-56: the comparison
runs only under `if box and viewport:`; when either `bounding_box()` or
`viewport_size` returned `None`, the function completes without printing any
verdict. -/
def centeringVerdict (box : Option BoundingBox) (viewport : Option ViewportSize) : Verdict :=
  match box, viewport with
  | some b, some v => if centeredCheck b v then Verdict.success else Verdict.failure
  | _, _ => Verdict.noVerdict

/-- The line printed for each verdict (`verify_window_center.py`, lines 54 and 56);
no line at all when the guard on line 42 skips the check. -/
def verdictLine : Verdict → Option String
  | Verdict.success => some "VERIFICATION SUCCESS: Window is centered."
  | Verdict.failure => some "VERIFICATION FAILURE: Window is not centered."
  | Verdict.noVerdict => none

/-! ## Region probes and their printed records (`verify_context_menu.py`) -/

/-- Outcome of the background probe's `wait_for_selector` with a 2 second
timeout (`verify_context_menu.py`, line 36). -/
inductive WaitOutcome where
  | found
  | timedOut
deriving DecidableEq

/-- Outcome of evaluating `page.locator("text=Change Wallpaper").is_visible()`
in the three negative probes: the menu is visible, not visible, or the
evaluation itself raised. -/
inductive CheckOutcome where
  | visible
  | notVisible
  | raised
deriving DecidableEq

/-- The marker word that starts each printed record line. -/
inductive Marker where
  | success
  | failure
  | warning
deriving DecidableEq

/-- One printed record line: its marker word and the rest of the text. -/
structure RecordLine where
  marker : Marker
  text : String
deriving DecidableEq

/-- The record printed by the background probe (`verify_context_menu.py`,
lines 35-39): SUCCESS when the menu selector appeared within the timeout,
FAILURE when the wait timed out. -/
def backgroundRecord : WaitOutcome → RecordLine
  | WaitOutcome.found => ⟨Marker.success, ": Context menu appeared on desktop background."⟩
  | WaitOutcome.timedOut => ⟨Marker.failure, ": Context menu did NOT appear on desktop background."⟩

/-- The record printed by a negative probe (`verify_context_menu.py`,
lines 52-58, 66-72 and 80-86): FAILURE when the menu is visible, SUCCESS when
it is not, and SUCCESS with an `(exception)` suffix when the visibility
evaluation raised (the bare `except:` branch). -/
def negativeProbeRecord (region : String) : CheckOutcome → RecordLine
  | CheckOutcome.visible => ⟨Marker.failure, ": Context menu appeared on " ++ region ++ "."⟩
  | CheckOutcome.notVisible =>
      ⟨Marker.success, ": Context menu did NOT appear on " ++ region ++ "."⟩
  | CheckOutcome.raised =>
      ⟨Marker.success, ": Context menu did NOT appear on " ++ region ++ " (exception)."⟩

/-- The environment a run of the probe sequence observes: the outcome of each
probe's check and the element counts consulted by the `if ... .count() > 0`
guards before the app-icon and dock probes. -/
structure ProbeEnv where
  bgWait : WaitOutcome
  menubarCheck : CheckOutcome
  appIconCount : Nat
  appIconCheck : CheckOutcome
  dockCount : Nat
  dockCheck : CheckOutcome
deriving DecidableEq

/-- The record lines printed by the four probes of `verify_context_menu.py`,
lines 26-88, in program order. Each probe's inner `try/except` (or explicit
`if/else` on the count) prints exactly one line and control always continues
to the next probe. -/
def runProbes (env : ProbeEnv) : List RecordLine :=
  [backgroundRecord env.bgWait,
   negativeProbeRecord "Menu Bar" env.menubarCheck,
   if 0 < env.appIconCount then negativeProbeRecord "App Icon" env.appIconCheck
     else ⟨Marker.warning, ": Could not find app icon to test."⟩,
   if 0 < env.dockCount then negativeProbeRecord "Dock" env.dockCheck
     else ⟨Marker.warning, ": Could not find dock to test."⟩]

/-! ## Session seeding order (all three scripts) -/

/-- The driver calls relevant to session seeding, in the order each script
issues them: installing the seeding init script (`add_init_script`),
navigating (`page.goto`), and writing the seed by evaluating a script in the
loaded page (`page.evaluate` setting `auth_token` and `user`). -/
inductive BootAction where
  | addInitScriptSeed
  | goto (url : String)
  | evaluateSeed
deriving DecidableEq

/-- Seeding state of the browsing context: whether a seeding init script is
installed, and whether the storage currently holds the seed keys. -/
structure SeedState where
  initScriptInstalled : Bool
  storageSeeded : Bool
deriving DecidableEq

/-- Whether the page scripts of a navigation starting in state `s` observe the
seed: an installed init script runs before any page script and writes the
keys, and storage written earlier persists across same-origin navigations. -/
def navSeeded (s : SeedState) : Bool := s.initScriptInstalled || s.storageSeeded

/-- State transition of one boot action. A navigation under an installed init
script leaves the keys in storage. -/
def stepSeed (s : SeedState) : BootAction → SeedState
  | BootAction.addInitScriptSeed => ⟨true, s.storageSeeded⟩
  | BootAction.evaluateSeed => ⟨s.initScriptInstalled, true⟩
  | BootAction.goto _ => ⟨s.initScriptInstalled, s.storageSeeded || s.initScriptInstalled⟩

/-- For each navigation in the action list, whether its page scripts ran with
the seed already in place. -/
def navObservations (s : SeedState) : List BootAction → List Bool
  | [] => []
  | BootAction.goto u :: rest =>
      navSeeded s :: navObservations (stepSeed s (BootAction.goto u)) rest
  | a :: rest => navObservations (stepSeed s a) rest

/-- A fresh browsing context: no init script, storage empty. -/
def initialSeedState : SeedState := ⟨false, false⟩

/-- Boot actions of `verify_activity.py`, lines 17-28: `add_init_script`
with the seed, then the navigation to the desktop. -/
def activityBootActions : List BootAction :=
  [BootAction.addInitScriptSeed, BootAction.goto "http://localhost:5173/desktop"]

/-- Boot actions of `verify_window_center.py`, lines 6-20: navigate to the
login page, write the seed with `page.evaluate`, then navigate to the
desktop. -/
def windowCenterBootActions : List BootAction :=
  [BootAction.goto "http://localhost:5173/login", BootAction.evaluateSeed,
   BootAction.goto "http://localhost:5173/desktop"]

/-- Boot actions of `verify_context_menu.py`, lines 12-20: navigate to the
origin, write the seed with `page.evaluate`, then navigate to the desktop. -/
def contextMenuBootActions : List BootAction :=
  [BootAction.goto "http://localhost:5173/", BootAction.evaluateSeed,
   BootAction.goto "http://localhost:5173/desktop"]

/-- Whether every navigation of the action list runs its page scripts with the
seed already written. -/
def seededOnEveryNav (tr : List BootAction) : Bool :=
  (navObservations initialSeedState tr).all id

/-! ## The probe/cleanup interaction trace (`verify_context_menu.py`) -/

/-- The page interactions of the probe phase: secondary (right) clicks that
open a probe, visibility checks, screenshots, the neutralizing primary (left)
click of line 45, and the settle wait of line 46. -/
inductive ProbeAction where
  | rightClick (region : String)
  | visibilityCheck (region : String)
  | screenshot (path : String)
  | leftClick
  | settleWait (ms : Nat)
deriving DecidableEq

/-- Recognize the neutralizing primary click. -/
def isLeftClick : ProbeAction → Bool
  | ProbeAction.leftClick => true
  | _ => false

/-- The interaction trace of `verify_context_menu.py`, lines 26-91, in program
order; the two booleans record whether the `count() > 0` guards found an app
icon and a dock (when a guard fails, that probe's interactions are skipped).
The inner `try/except` blocks make the trace independent of every check's
outcome. -/
def contextMenuProbePhase (appIconPresent dockPresent : Bool) : List ProbeAction :=
  [ProbeAction.rightClick "desktop background",
   ProbeAction.visibilityCheck "desktop background",
   ProbeAction.screenshot "verification/desktop_context_menu.png",
   ProbeAction.leftClick,
   ProbeAction.settleWait 500,
   ProbeAction.rightClick "Menu Bar",
   ProbeAction.visibilityCheck "Menu Bar"]
  ++ (if appIconPresent then
        [ProbeAction.rightClick "App Icon", ProbeAction.visibilityCheck "App Icon"]
      else [])
  ++ (if dockPresent then
        [ProbeAction.rightClick "Dock", ProbeAction.visibilityCheck "Dock"]
      else [])
  ++ [ProbeAction.screenshot "verification/no_context_menu.png"]

/-- Scan of a trace checking that every probe-opening right click is followed
by a neutralizing left click before the next right click. The flag carries
whether a right click is still awaiting its cleanup. -/
def cleanupAux : Bool → List ProbeAction → Bool
  | _, [] => true
  | pending, ProbeAction.rightClick _ :: rest => !pending && cleanupAux true rest
  | _, ProbeAction.leftClick :: rest => cleanupAux false rest
  | pending, _ :: rest => cleanupAux pending rest

/-- Whether, in the given trace, every probe is neutralized by a primary click
before the next probe begins. -/
def cleanupAfterEachProbe (tr : List ProbeAction) : Bool := cleanupAux false tr

/-! ## Scenario control flow: try/except/finally (all three scripts) -/

/-- One step of a scenario body (the statements inside the `try` block):
driver calls and `expect` assertions raise on failure and jump to the
`except` handler; an inner-`try` recorded check never raises outward; a
checkpoint screenshot records its path. -/
inductive BodyStep where
  | driverCall (name : String)
  | assertStep (name : String)
  | recordedCheck (name : String)
  | checkpointShot (path : String)
deriving DecidableEq

/-- Execute a body under `fails` (which step names raise): returns the
checkpoint screenshots captured, and whether an exception aborted the body
(reaching the `except` handler). Execution stops at the first raising step;
recorded checks continue regardless. -/
def runBodySteps (fails : String → Bool) : List BodyStep → List String × Bool
  | [] => ([], false)
  | BodyStep.driverCall n :: rest =>
      if fails n then ([], true) else runBodySteps fails rest
  | BodyStep.assertStep n :: rest =>
      if fails n then ([], true) else runBodySteps fails rest
  | BodyStep.recordedCheck _ :: rest => runBodySteps fails rest
  | BodyStep.checkpointShot p :: rest =>
      (p :: (runBodySteps fails rest).1, (runBodySteps fails rest).2)

/-- Whether some driver call or assertion in the list raises under `fails`. -/
def abortsOn (fails : String → Bool) : List BodyStep → Bool
  | [] => false
  | BodyStep.driverCall n :: rest => fails n || abortsOn fails rest
  | BodyStep.assertStep n :: rest => fails n || abortsOn fails rest
  | _ :: rest => abortsOn fails rest

/-- Whether the list contains a checkpoint screenshot step. -/
def hasShot : List BodyStep → Bool
  | [] => false
  | BodyStep.checkpointShot _ :: _ => true
  | _ :: rest => hasShot rest

/-- The try/except/finally shape of one scenario script: the step names
executed before the `try` block is entered, and the steps of the `try` body.
In all three scripts the `except Exception` handler prints the error and
captures `verification/error.png`, and the `finally` calls
`browser.close()`. -/
structure TryScenario where
  scenarioName : String
  preTry : List String
  body : List BodyStep
deriving DecidableEq

/-- What a scenario run did on exit: the checkpoint screenshots captured,
whether the except-handler error screenshot was attempted, and whether the
`finally` block's `browser.close()` executed. -/
structure RunOutcome where
  screenshots : List String
  errorShot : Bool
  browserClosed : Bool
deriving DecidableEq

/-- Run a scenario under `fails`. An exception in a pre-try step propagates
before the `try` statement is reached, so neither the except handler nor the
`finally` runs; an exception inside the body reaches the handler (error
screenshot) and the `finally` (close); otherwise the body completes and the
`finally` closes the browser. -/
def runScenario (s : TryScenario) (fails : String → Bool) : RunOutcome :=
  if s.preTry.any fails then ⟨[], false, false⟩
  else ⟨(runBodySteps fails s.body).1, (runBodySteps fails s.body).2, true⟩

/-- `verify_window_center.py`, lines 58-69: the browser launch and
`browser.new_page` happen before the `try`; the `try` body is the whole of
`verify_window_centering` (lines 4-56). -/
def windowCenterScenario : TryScenario :=
  ⟨"verify_window_center",
   ["launch_chromium", "new_page_1280x800"],
   [BodyStep.driverCall "goto_login",
    BodyStep.driverCall "evaluate_seed_localstorage",
    BodyStep.driverCall "goto_desktop",
    BodyStep.driverCall "wait_for_desktop_icon",
    BodyStep.driverCall "click_settings_icon",
    BodyStep.driverCall "wait_for_desktop_window",
    BodyStep.checkpointShot "verification/verification.png",
    BodyStep.driverCall "read_bounding_box_and_viewport",
    BodyStep.recordedCheck "centering_check"]⟩

/-- The body steps of `verify_activity.py` before its checkpoint screenshot
(lines 26-53): the desktop navigation, the `expect` assertions (which raise
on failure), the icon click and the settle sleep. -/
def activityFront : List BodyStep :=
  [BodyStep.driverCall "goto_desktop",
   BodyStep.assertStep "expect_mynt_nas_visible",
   BodyStep.assertStep "expect_activity_icon_visible",
   BodyStep.driverCall "click_activity_icon",
   BodyStep.assertStep "expect_window_title_visible",
   BodyStep.assertStep "expect_cpu_button_visible",
   BodyStep.assertStep "expect_memory_button_visible",
   BodyStep.assertStep "expect_process_name_visible",
   BodyStep.assertStep "expect_cpu_header_visible",
   BodyStep.driverCall "sleep_1s"]

/-- `verify_activity.py`, lines 4-61: launch, context and page creation and
`add_init_script` happen before the `try`; the single checkpoint screenshot
(line 54) comes after every assertion. -/
def activityMonitorScenario : TryScenario :=
  ⟨"verify_activity_monitor",
   ["launch_chromium", "new_context", "new_page", "add_init_script_seed"],
   activityFront ++ [BodyStep.checkpointShot "verification/activity_monitor.png"]⟩

/-- `verify_context_menu.py`, lines 3-99: launch, context and page creation,
the navigation to the origin (line 12) and the seeding `evaluate` (line 13)
all happen before the `try` of line 19. The probes are inner-`try` recorded
checks; the two checkpoint screenshots are lines 42 and 91. -/
def contextMenuScenario : TryScenario :=
  ⟨"verify_context_menu",
   ["launch_chromium", "new_context_1280x800", "new_page", "goto_origin",
    "evaluate_seed_localstorage"],
   [BodyStep.driverCall "goto_desktop",
    BodyStep.driverCall "wait_for_menubar",
    BodyStep.driverCall "right_click_background",
    BodyStep.recordedCheck "background_menu_visibility",
    BodyStep.checkpointShot "verification/desktop_context_menu.png",
    BodyStep.driverCall "neutralizing_left_click",
    BodyStep.driverCall "wait_500ms",
    BodyStep.driverCall "right_click_menubar",
    BodyStep.recordedCheck "menubar_menu_visibility",
    BodyStep.driverCall "right_click_app_icon",
    BodyStep.recordedCheck "app_icon_menu_visibility",
    BodyStep.driverCall "right_click_dock",
    BodyStep.recordedCheck "dock_menu_visibility",
    BodyStep.checkpointShot "verification/no_context_menu.png"]⟩

/-! ## Helper lemmas -/

/-- `absQ` agrees with the mathematical absolute value. -/
theorem absQ_eq_abs (q : ℚ) : absQ q = |q| := by
  unfold absQ
  rcases lt_or_ge q 0 with h | h
  · rw [if_pos h, abs_of_neg h]
  · rw [if_neg (not_lt.mpr h), abs_of_nonneg h]

/-- Running a body that consists of shot-free steps followed by a single
checkpoint screenshot: the screenshot is captured exactly when no earlier
step raises. -/
theorem runBodySteps_append_shot (fails : String → Bool) (p : String) :
    ∀ steps : List BodyStep, hasShot steps = false →
    runBodySteps fails (steps ++ [BodyStep.checkpointShot p]) =
      if abortsOn fails steps then ([], true) else ([p], false) := by
  intro steps
  induction steps with
  | nil => intro h; simp [runBodySteps, abortsOn]
  | cons a rest ih =>
    intro h
    cases a with
    | driverCall n =>
      have hrest : hasShot rest = false := by simpa [hasShot] using h
      cases hf : fails n <;> simp [runBodySteps, abortsOn, hf, ih hrest]
    | assertStep n =>
      have hrest : hasShot rest = false := by simpa [hasShot] using h
      cases hf : fails n <;> simp [runBodySteps, abortsOn, hf, ih hrest]
    | recordedCheck n =>
      have hrest : hasShot rest = false := by simpa [hasShot] using h
      simp [runBodySteps, abortsOn, ih hrest]
    | checkpointShot q => simp [hasShot] at h

/-! ## Claim C1: the centering check formula -/

/-- Claim C1: the window-centering check computes
`expectedX = (viewportWidth - windowWidth) / 2` and
`expectedY = (viewportHeight - windowHeight) / 2` (window 800 by 600), and it
passes if and only if both coordinate deviations are strictly below the
tolerance 5. -/
theorem centeredCheck_iff_within_tolerance (box : BoundingBox) (v : ViewportSize) :
    centeredCheck box v = true ↔
      |box.x - (v.width - 800) / 2| < 5 ∧ |box.y - (v.height - 600) / 2| < 5 := by
  simp [centeredCheck, expected_x, expected_y, absQ_eq_abs]

/-! ## Claim C7: concrete centering values -/

/-- Claim C7: with viewport 1280 by 800 and the fixed 800 by 600 window the
expected top-left corner is (240, 100); a box at (242, 98) passes the check
with tolerance 5 and a box at (260, 100) fails it. -/
theorem centering_example_values :
    expected_x ⟨1280, 800⟩ = 240 ∧ expected_y ⟨1280, 800⟩ = 100 ∧
    centeredCheck ⟨242, 98, 800, 600⟩ ⟨1280, 800⟩ = true ∧
    centeredCheck ⟨260, 100, 800, 600⟩ ⟨1280, 800⟩ = false := by
  refine ⟨?_, ?_, ?_, ?_⟩ <;>
    norm_num [centeredCheck, expected_x, expected_y, absQ]

/-! ## Claim C6: tolerance monotonicity (corrected) -/

/-- Counterexample to claim C6 as stated: with viewport 1280 by 800, window
800 by 600 and tolerance 0, a box exactly at the expected position (240, 100)
does NOT pass `boundingBoxWithin` — the comparison on line 53 of
`verify_window_center.py` is strict, so tolerance 0 rejects even an exact
match. -/
theorem exact_match_fails_at_zero_tolerance :
    expectedXGen ⟨1280, 800, 800, 600, 0⟩ = 240 ∧
    expectedYGen ⟨1280, 800, 800, 600, 0⟩ = 100 ∧
    boundingBoxWithin ⟨240, 100, 800, 600⟩ ⟨1280, 800, 800, 600, 0⟩ = false := by
  refine ⟨?_, ?_, ?_⟩ <;>
    norm_num [boundingBoxWithin, expectedXGen, expectedYGen, absQ]

/-- Claim C6 (amended): `boundingBoxWithin` is tolerance-monotonic — a box
passing at tolerance T passes at every tolerance of at least T — and a box
exactly at the expected position passes for every tolerance strictly greater
than 0 (at tolerance 0 the strict comparison fails even on an exact match). -/
theorem boundingBoxWithin_monotonic_and_exact :
    (∀ (a : BoundingBox) (g : ExpectedGeometry) (t2 : ℚ),
      boundingBoxWithin a g = true → g.tolerancePx ≤ t2 →
      boundingBoxWithin a (withTolerance g t2) = true) ∧
    (∀ (a : BoundingBox) (g : ExpectedGeometry),
      a.x = expectedXGen g → a.y = expectedYGen g → 0 < g.tolerancePx →
      boundingBoxWithin a g = true) := by
  constructor
  · intro a g t2 hpass hle
    have hx : absQ (a.x - expectedXGen g) < g.tolerancePx ∧
        absQ (a.y - expectedYGen g) < g.tolerancePx := by
      simpa [boundingBoxWithin] using hpass
    have hgx : expectedXGen (withTolerance g t2) = expectedXGen g := rfl
    have hgy : expectedYGen (withTolerance g t2) = expectedYGen g := rfl
    have htl : (withTolerance g t2).tolerancePx = t2 := rfl
    simp only [boundingBoxWithin, hgx, hgy, htl, Bool.and_eq_true, decide_eq_true_eq]
    exact ⟨lt_of_lt_of_le hx.1 hle, lt_of_lt_of_le hx.2 hle⟩
  · intro a g hx hy ht
    simp only [boundingBoxWithin, hx, hy, sub_self, Bool.and_eq_true, decide_eq_true_eq]
    constructor <;> simpa [absQ] using ht

/-- Witness for the amended claim C6 at concrete inputs: the box (242, 98)
passes at tolerance 5 hence also at tolerance 9, and the exact box (240, 100)
passes at tolerance 5. -/
theorem boundingBoxWithin_monotonic_witness :
    boundingBoxWithin ⟨242, 98, 800, 600⟩ (withTolerance ⟨1280, 800, 800, 600, 5⟩ 9) = true ∧
    boundingBoxWithin ⟨240, 100, 800, 600⟩ ⟨1280, 800, 800, 600, 5⟩ = true :=
  ⟨boundingBoxWithin_monotonic_and_exact.1 ⟨242, 98, 800, 600⟩ ⟨1280, 800, 800, 600, 5⟩ 9
      (by norm_num [boundingBoxWithin, expectedXGen, expectedYGen, absQ]) (by norm_num),
   boundingBoxWithin_monotonic_and_exact.2 ⟨240, 100, 800, 600⟩ ⟨1280, 800, 800, 600, 5⟩
      (by norm_num [expectedXGen]) (by norm_num [expectedYGen]) (by norm_num)⟩

/-! ## Claim C9: the verdict is printed only when box and viewport exist
(corrected) -/

/-- Counterexample to claim C9 as stated: when `bounding_box()` returns
`None` (and the viewport is present), the run of the centering check
completes without printing any success or failure verdict — the guard
`if box and viewport:` on line 42 silently skips the whole comparison. -/
theorem missing_box_prints_no_verdict :
    centeringVerdict none (some ⟨1280, 800⟩) = Verdict.noVerdict ∧
    verdictLine (centeringVerdict none (some ⟨1280, 800⟩)) = none := ⟨rfl, rfl⟩

/-- Claim C9 (amended): whenever both the bounding box and the viewport are
present, the check prints exactly one clearly marked verdict line — the
failure line when the check does not pass — but when either value is missing
it completes with no verdict line at all. -/
theorem verdict_of_inputs :
    ∀ (b : BoundingBox) (v : ViewportSize) (ob : Option BoundingBox)
      (ov : Option ViewportSize),
    (centeredCheck b v = false →
      verdictLine (centeringVerdict (some b) (some v)) =
        some "VERIFICATION FAILURE: Window is not centered.") ∧
    (centeredCheck b v = true →
      verdictLine (centeringVerdict (some b) (some v)) =
        some "VERIFICATION SUCCESS: Window is centered.") ∧
    (ob = none ∨ ov = none → verdictLine (centeringVerdict ob ov) = none) := by
  intro b v ob ov
  refine ⟨?_, ?_, ?_⟩
  · intro h; simp [centeringVerdict, h, verdictLine]
  · intro h; simp [centeringVerdict, h, verdictLine]
  · rintro (rfl | rfl)
    · cases ov <;> rfl
    · cases ob <;> rfl

/-- Witness for the amended claim C9: the off-center box (260, 100) gets the
failure line, and a missing viewport yields no verdict line. -/
theorem verdict_of_inputs_witness :
    verdictLine (centeringVerdict (some ⟨260, 100, 800, 600⟩) (some ⟨1280, 800⟩)) =
      some "VERIFICATION FAILURE: Window is not centered." ∧
    verdictLine (centeringVerdict (some ⟨242, 98, 800, 600⟩) none) = none :=
  ⟨(verdict_of_inputs ⟨260, 100, 800, 600⟩ ⟨1280, 800⟩ none none).1
      (by norm_num [centeredCheck, expected_x, expected_y, absQ]),
   (verdict_of_inputs ⟨242, 98, 800, 600⟩ ⟨1280, 800⟩ (some ⟨242, 98, 800, 600⟩) none).2.2
      (Or.inr rfl)⟩

/-! ## Claim C2: seeding before the first application script (corrected) -/

/-- Counterexample to claim C2 as stated: in the window-centering scenario
the seed is written by `page.evaluate` only after the navigation to
`/login` has completed, so the first navigation's application scripts run
without the seed — the scenario does not seed storage before the first
application script executes on the target origin. -/
theorem seed_after_first_navigation :
    seededOnEveryNav windowCenterBootActions = false ∧
    (navObservations initialSeedState windowCenterBootActions).head? = some false :=
  ⟨rfl, rfl⟩

/-- Claim C2 (amended): only the activity-monitor scenario installs the seed
as an init script before any navigation, so its every navigation runs page
scripts with the seed in place; the window-centering and context-menu
scenarios write the seed with a post-navigation `evaluate`, so their first
navigation runs application scripts unseeded and only the subsequent desktop
navigation observes the seed. -/
theorem seed_timing_by_scenario :
    navObservations initialSeedState activityBootActions = [true] ∧
    navObservations initialSeedState windowCenterBootActions = [false, true] ∧
    navObservations initialSeedState contextMenuBootActions = [false, true] :=
  ⟨rfl, rfl, rfl⟩

/-! ## Claim C3: neutralizing click after every probe (corrected) -/

/-- Counterexample to claim C3 as stated: in the interaction trace of
`verify_context_menu.py` (app icon and dock present), it is NOT the case
that every probe is followed by a neutralizing primary click before the next
probe begins — the menu-bar, app-icon and dock right clicks have no cleanup
click between them. -/
theorem cleanup_missing_between_probes :
    cleanupAfterEachProbe (contextMenuProbePhase true true) = false := rfl

/-- Claim C3 (amended): only the background probe is followed by a
neutralizing primary click (line 45, which runs regardless of that probe's
check outcome because it sits after the inner `try/except`); the whole trace
contains exactly that one primary click, the portion of the trace from the
menu-bar probe onward contains none, and therefore, whenever the app-icon
probe runs, the trace violates the cleanup-after-every-probe discipline. -/
theorem cleanup_only_after_background :
    ∀ ai dk : Bool,
    ((contextMenuProbePhase ai dk).countP isLeftClick = 1) ∧
    ((contextMenuProbePhase ai dk).take 5 =
      [ProbeAction.rightClick "desktop background",
       ProbeAction.visibilityCheck "desktop background",
       ProbeAction.screenshot "verification/desktop_context_menu.png",
       ProbeAction.leftClick,
       ProbeAction.settleWait 500]) ∧
    (((contextMenuProbePhase ai dk).drop 5).countP isLeftClick = 0) ∧
    (ai = true → cleanupAfterEachProbe (contextMenuProbePhase ai dk) = false) := by
  intro ai dk
  cases ai <;> cases dk <;> refine ⟨rfl, rfl, rfl, ?_⟩
  · intro h; exact Bool.noConfusion h
  · intro h; exact Bool.noConfusion h
  · intro h; rfl
  · intro h; rfl

/-- Witness for the amended claim C3 with both guards finding their element:
one primary click in the trace, and the cleanup-after-every-probe scan
fails. -/
theorem cleanup_only_after_background_witness :
    (contextMenuProbePhase true true).countP isLeftClick = 1 ∧
    cleanupAfterEachProbe (contextMenuProbePhase true true) = false :=
  ⟨(cleanup_only_after_background true true).1,
   (cleanup_only_after_background true true).2.2.2 rfl⟩

/-! ## Claim C4: the four probes are independent (confirmed) -/

/-- Claim C4: the four region probes are evaluated independently — the run
always prints exactly four records, each probe's record is a function of that
probe's own outcome only (so no outcome of one probe, in particular a
failure, can change or suppress another probe's record), and when the
app-icon and dock guards find their elements every record is a SUCCESS or
FAILURE record. -/
theorem probes_independent :
    ∀ e1 e2 : ProbeEnv,
    (runProbes e1).length = 4 ∧
    (e1.bgWait = e2.bgWait → (runProbes e1)[0]? = (runProbes e2)[0]?) ∧
    (e1.menubarCheck = e2.menubarCheck → (runProbes e1)[1]? = (runProbes e2)[1]?) ∧
    (e1.appIconCount = e2.appIconCount → e1.appIconCheck = e2.appIconCheck →
      (runProbes e1)[2]? = (runProbes e2)[2]?) ∧
    (e1.dockCount = e2.dockCount → e1.dockCheck = e2.dockCheck →
      (runProbes e1)[3]? = (runProbes e2)[3]?) ∧
    (0 < e1.appIconCount → 0 < e1.dockCount →
      ∀ r ∈ runProbes e1, r.marker = Marker.success ∨ r.marker = Marker.failure) := by
  intro e1 e2
  refine ⟨rfl, ?_, ?_, ?_, ?_, ?_⟩
  · intro h; simp [runProbes, h]
  · intro h; simp [runProbes, h]
  · intro h1 h2; simp [runProbes, h1, h2]
  · intro h1 h2; simp [runProbes, h1, h2]
  · intro hai hdc r hr
    simp only [runProbes, if_pos hai, if_pos hdc, List.mem_cons,
      List.mem_singleton, List.not_mem_nil, or_false] at hr
    rcases hr with rfl | rfl | rfl | rfl
    · cases e1.bgWait <;> simp [backgroundRecord]
    · cases e1.menubarCheck <;> simp [negativeProbeRecord]
    · cases e1.appIconCheck <;> simp [negativeProbeRecord]
    · cases e1.dockCheck <;> simp [negativeProbeRecord]

/-- Witness for claim C4 at concrete environments: a run whose background
wait timed out and whose menu-bar check raised still prints four records,
the menu-bar record agrees with a second environment differing in every
other component, and the background FAILURE record of that run is a
pass/fail record. -/
theorem probes_independent_witness :
    (runProbes ⟨WaitOutcome.timedOut, CheckOutcome.raised, 1, CheckOutcome.visible, 1,
        CheckOutcome.notVisible⟩).length = 4 ∧
    (runProbes ⟨WaitOutcome.timedOut, CheckOutcome.raised, 1, CheckOutcome.visible, 1,
        CheckOutcome.notVisible⟩)[1]? =
      (runProbes ⟨WaitOutcome.found, CheckOutcome.raised, 2, CheckOutcome.raised, 3,
        CheckOutcome.raised⟩)[1]? ∧
    ((backgroundRecord WaitOutcome.timedOut).marker = Marker.success ∨
      (backgroundRecord WaitOutcome.timedOut).marker = Marker.failure) :=
  ⟨(probes_independent ⟨WaitOutcome.timedOut, CheckOutcome.raised, 1,
      CheckOutcome.visible, 1, CheckOutcome.notVisible⟩ ⟨WaitOutcome.timedOut,
      CheckOutcome.raised, 1, CheckOutcome.visible, 1, CheckOutcome.notVisible⟩).1,
    (probes_independent ⟨WaitOutcome.timedOut, CheckOutcome.raised, 1, CheckOutcome.visible,
      1, CheckOutcome.notVisible⟩ ⟨WaitOutcome.found, CheckOutcome.raised, 2,
      CheckOutcome.raised, 3, CheckOutcome.raised⟩).2.2.1 rfl,
    (probes_independent ⟨WaitOutcome.timedOut, CheckOutcome.raised, 1, CheckOutcome.visible,
      1, CheckOutcome.notVisible⟩ ⟨WaitOutcome.timedOut, CheckOutcome.raised, 1,
      CheckOutcome.visible, 1, CheckOutcome.notVisible⟩).2.2.2.2.2 (by decide) (by decide)
      (backgroundRecord WaitOutcome.timedOut) (by simp [runProbes])⟩

/-! ## Claim C10: exceptions in negative probes become SUCCESS (confirmed) -/

/-- Claim C10: in the three negative probes an exception raised while
evaluating the menu visibility is converted by the bare `except:` into a
SUCCESS record, carrying the same SUCCESS marker as a genuine not-visible
outcome — so a SUCCESS record does not imply that the visibility check
actually executed. -/
theorem exception_becomes_success_record :
    ∀ (env : ProbeEnv) (region : String),
    ((negativeProbeRecord region CheckOutcome.raised).marker = Marker.success) ∧
    ((negativeProbeRecord region CheckOutcome.raised).marker =
      (negativeProbeRecord region CheckOutcome.notVisible).marker) ∧
    (env.menubarCheck = CheckOutcome.raised →
      (runProbes env)[1]? = some (negativeProbeRecord "Menu Bar" CheckOutcome.raised)) ∧
    (0 < env.appIconCount → env.appIconCheck = CheckOutcome.raised →
      (runProbes env)[2]? = some (negativeProbeRecord "App Icon" CheckOutcome.raised)) ∧
    (0 < env.dockCount → env.dockCheck = CheckOutcome.raised →
      (runProbes env)[3]? = some (negativeProbeRecord "Dock" CheckOutcome.raised)) := by
  intro env region
  refine ⟨rfl, rfl, ?_, ?_, ?_⟩
  · intro h; simp [runProbes, h]
  · intro h1 h2; simp [runProbes, h1, h2]
  · intro h1 h2; simp [runProbes, h1, h2]

/-- Witness for claim C10 at a concrete environment in which all three
negative checks raised: each negative record slot holds the SUCCESS
`(exception)` record. -/
theorem exception_becomes_success_witness :
    (negativeProbeRecord "Menu Bar" CheckOutcome.raised).marker = Marker.success ∧
    (runProbes ⟨WaitOutcome.found, CheckOutcome.raised, 1, CheckOutcome.raised, 1,
        CheckOutcome.raised⟩)[1]? =
      some (negativeProbeRecord "Menu Bar" CheckOutcome.raised) ∧
    (runProbes ⟨WaitOutcome.found, CheckOutcome.raised, 1, CheckOutcome.raised, 1,
        CheckOutcome.raised⟩)[2]? =
      some (negativeProbeRecord "App Icon" CheckOutcome.raised) ∧
    (runProbes ⟨WaitOutcome.found, CheckOutcome.raised, 1, CheckOutcome.raised, 1,
        CheckOutcome.raised⟩)[3]? =
      some (negativeProbeRecord "Dock" CheckOutcome.raised) :=
  ⟨(exception_becomes_success_record ⟨WaitOutcome.found, CheckOutcome.raised, 1,
      CheckOutcome.raised, 1, CheckOutcome.raised⟩ "Menu Bar").1,
   (exception_becomes_success_record ⟨WaitOutcome.found, CheckOutcome.raised, 1,
      CheckOutcome.raised, 1, CheckOutcome.raised⟩ "Menu Bar").2.2.1 rfl,
   (exception_becomes_success_record ⟨WaitOutcome.found, CheckOutcome.raised, 1,
      CheckOutcome.raised, 1, CheckOutcome.raised⟩ "Menu Bar").2.2.2.1
      (by norm_num) rfl,
   (exception_becomes_success_record ⟨WaitOutcome.found, CheckOutcome.raised, 1,
      CheckOutcome.raised, 1, CheckOutcome.raised⟩ "Menu Bar").2.2.2.2
      (by norm_num) rfl⟩

/-! ## Claim C5: screenshot and close on every exit path (corrected) -/

/-- Counterexample to claim C5 as stated: the context-menu scenario issues
its origin navigation (`page.goto("http://localhost:5173/")`, line 12)
before the `try` block of line 19, so when that navigation raises, the
escaping error produces no diagnostic screenshot and `browser.close()` in
the `finally` never executes. -/
theorem origin_goto_failure_skips_close :
    "goto_origin" ∈ contextMenuScenario.preTry ∧
    (runScenario contextMenuScenario (fun n => n == "goto_origin")).browserClosed = false ∧
    (runScenario contextMenuScenario (fun n => n == "goto_origin")).errorShot = false ∧
    (runScenario contextMenuScenario (fun n => n == "goto_origin")).screenshots = [] := by
  refine ⟨by decide, rfl, rfl, rfl⟩

/-- Claim C5 (amended): in each of the three scenarios, an error raised by a
step inside the `try` body reaches the except handler's diagnostic
screenshot and the `finally` close, and a run with no pre-try error always
closes the browser; but an error raised in a pre-try setup step (browser or
page creation; in the context-menu scenario also the initial origin
navigation and the seeding evaluate) escapes with no diagnostic screenshot
and without `browser.close()` running. -/
theorem scenario_exit_paths :
    ∀ (s : TryScenario) (fails : String → Bool),
    s ∈ [windowCenterScenario, activityMonitorScenario, contextMenuScenario] →
    (s.preTry.any fails = false → (runScenario s fails).browserClosed = true) ∧
    (s.preTry.any fails = false → (runBodySteps fails s.body).2 = true →
      (runScenario s fails).errorShot = true) ∧
    (s.preTry.any fails = true →
      (runScenario s fails).browserClosed = false ∧
      (runScenario s fails).errorShot = false ∧
      (runScenario s fails).screenshots = []) := by
  intro s fails hs
  refine ⟨?_, ?_, ?_⟩
  · intro h; simp [runScenario, h]
  · intro h habort; simp [runScenario, h, habort]
  · intro h; simp [runScenario, h]

/-- Witness for the amended claim C5: with no failing step the context-menu
scenario closes the browser; with a failing desktop navigation (a body step)
the activity scenario attempts the error screenshot; with a failing origin
navigation (a pre-try step) the context-menu scenario does not close the
browser. -/
theorem scenario_exit_paths_witness :
    (runScenario contextMenuScenario (fun _ => false)).browserClosed = true ∧
    (runScenario activityMonitorScenario (fun n => n == "goto_desktop")).errorShot = true ∧
    (runScenario contextMenuScenario (fun n => n == "goto_origin")).browserClosed = false :=
  ⟨(scenario_exit_paths contextMenuScenario (fun _ => false) (by simp)).1 (by decide),
   (scenario_exit_paths activityMonitorScenario (fun n => n == "goto_desktop")
      (by simp)).2.1 (by decide) (by decide),
   ((scenario_exit_paths contextMenuScenario (fun n => n == "goto_origin")
      (by simp)).2.2 (by decide)).1⟩

/-! ## Claim C8: checkpoint screenshots regardless of assertion outcome
(corrected) -/

/-- Counterexample to claim C8 as stated: in the activity-monitor scenario a
failed `expect` assertion (here the CPU-button visibility) raises before the
checkpoint screenshot of line 54 is reached, so no checkpoint screenshot is
captured — only the except handler's error screenshot. -/
theorem assertion_failure_skips_checkpoint_shot :
    BodyStep.assertStep "expect_cpu_button_visible" ∈ activityMonitorScenario.body ∧
    (runScenario activityMonitorScenario
      (fun n => n == "expect_cpu_button_visible")).screenshots = [] ∧
    (runScenario activityMonitorScenario
      (fun n => n == "expect_cpu_button_visible")).errorShot = true := by
  refine ⟨by decide, rfl, rfl⟩

/-- Claim C8 (amended): in the context-menu and window-centering scenarios
the checkpoint screenshots are captured whatever the recorded checks do,
because those checks sit in inner `try/except` blocks (provided no driver
call raises and the pre-try setup succeeds); in the activity-monitor
scenario the assertions raise on failure, so the checkpoint screenshot is
captured exactly when no assertion or driver call before it raises, and on
any such failure only the error screenshot is attempted. -/
theorem checkpoint_screenshot_conditions :
    ∀ fails : String → Bool,
    ((∀ n, BodyStep.driverCall n ∈ contextMenuScenario.body → fails n = false) →
      contextMenuScenario.preTry.any fails = false →
      (runScenario contextMenuScenario fails).screenshots =
        ["verification/desktop_context_menu.png", "verification/no_context_menu.png"]) ∧
    ((∀ n, BodyStep.driverCall n ∈ windowCenterScenario.body → fails n = false) →
      windowCenterScenario.preTry.any fails = false →
      (runScenario windowCenterScenario fails).screenshots =
        ["verification/verification.png"]) ∧
    (activityMonitorScenario.preTry.any fails = false →
      (abortsOn fails activityFront = true →
        (runScenario activityMonitorScenario fails).screenshots = [] ∧
        (runScenario activityMonitorScenario fails).errorShot = true) ∧
      (abortsOn fails activityFront = false →
        (runScenario activityMonitorScenario fails).screenshots =
          ["verification/activity_monitor.png"] ∧
        (runScenario activityMonitorScenario fails).errorShot = false)) := by
  intro fails
  refine ⟨?_, ?_, ?_⟩
  · intro hdrv hpre
    have h1 : fails "goto_desktop" = false := hdrv _ (by decide)
    have h2 : fails "wait_for_menubar" = false := hdrv _ (by decide)
    have h3 : fails "right_click_background" = false := hdrv _ (by decide)
    have h4 : fails "neutralizing_left_click" = false := hdrv _ (by decide)
    have h5 : fails "wait_500ms" = false := hdrv _ (by decide)
    have h6 : fails "right_click_menubar" = false := hdrv _ (by decide)
    have h7 : fails "right_click_app_icon" = false := hdrv _ (by decide)
    have h8 : fails "right_click_dock" = false := hdrv _ (by decide)
    have hp : fails "launch_chromium" = false ∧ fails "new_context_1280x800" = false ∧
        fails "new_page" = false ∧ fails "goto_origin" = false ∧
        fails "evaluate_seed_localstorage" = false := by
      simpa [contextMenuScenario, List.any_cons, List.any_nil] using hpre
    simp [runScenario, contextMenuScenario, runBodySteps,
      h1, h2, h3, h4, h5, h6, h7, h8, hp.1, hp.2.1, hp.2.2.1, hp.2.2.2.1, hp.2.2.2.2]
  · intro hdrv hpre
    have h1 : fails "goto_login" = false := hdrv _ (by decide)
    have h2 : fails "evaluate_seed_localstorage" = false := hdrv _ (by decide)
    have h3 : fails "goto_desktop" = false := hdrv _ (by decide)
    have h4 : fails "wait_for_desktop_icon" = false := hdrv _ (by decide)
    have h5 : fails "click_settings_icon" = false := hdrv _ (by decide)
    have h6 : fails "wait_for_desktop_window" = false := hdrv _ (by decide)
    have h7 : fails "read_bounding_box_and_viewport" = false := hdrv _ (by decide)
    have hp : fails "launch_chromium" = false ∧ fails "new_page_1280x800" = false := by
      simpa [windowCenterScenario, List.any_cons, List.any_nil] using hpre
    simp [runScenario, windowCenterScenario, runBodySteps,
      h1, h2, h3, h4, h5, h6, h7, hp.1, hp.2]
  · intro hpre
    have hsplit := runBodySteps_append_shot fails "verification/activity_monitor.png"
      activityFront (by decide)
    have hbody : activityMonitorScenario.body =
        activityFront ++ [BodyStep.checkpointShot "verification/activity_monitor.png"] := rfl
    constructor
    · intro hab
      constructor <;> simp [runScenario, hpre, hbody, hsplit, hab]
    · intro hab
      constructor <;> simp [runScenario, hpre, hbody, hsplit, hab]

/-- Witness for the amended claim C8: with no failing step the context-menu
scenario captures both checkpoint screenshots; with the first activity
assertion failing, the activity scenario captures no checkpoint
screenshot. -/
theorem checkpoint_screenshot_witness :
    (runScenario contextMenuScenario (fun _ => false)).screenshots =
      ["verification/desktop_context_menu.png", "verification/no_context_menu.png"] ∧
    (runScenario activityMonitorScenario
      (fun n => n == "expect_mynt_nas_visible")).screenshots = [] :=
  ⟨(checkpoint_screenshot_conditions (fun _ => false)).1 (fun n _ => rfl) (by decide),
   (((checkpoint_screenshot_conditions
      (fun n => n == "expect_mynt_nas_visible")).2.2 (by decide)).1 (by decide)).1⟩

end Mynt
